import Mathlib

/-!
Verification of the pil-css flexbox layout engine (src/pil_css.py).

The Python code is shallowly embedded: Python ints become Lean Int
(Python integer arithmetic is unbounded, and floor division is Int.fdiv),
PIL images become a structure with a width, a height and a total pixel
function, configuration literals stay Strings compared with decidable
equality exactly as the Python code compares them, exceptions become
Except String, and the mutation of a FlexBox during render becomes
explicit state passing: render returns the updated box together with the
image the Python method returns.
-/

namespace PilCss

/-- An RGBA pixel; channels are unbounded integers, PIL stores 0..255. -/
structure Pix where
  r : Int
  g : Int
  b : Int
  a : Int
deriving DecidableEq, Repr

/-- The fully transparent fill (0, 0, 0, 0) used by most add_padding branches. -/
def clearPix : Pix := ⟨0, 0, 0, 0⟩

/-- The opaque white fill (255, 255, 255, 255) used by the x and y branches. -/
def whitePix : Pix := ⟨255, 255, 255, 255⟩

/-- A raster image: a width, a height, and a pixel at every integer coordinate.
Coordinates outside the bounds carry no meaning for the image content. -/
structure Img where
  width : Int
  height : Int
  pix : Int → Int → Pix

/-- Modelled from the spec: the external image library call Image.new, which
creates a blank buffer of a given size filled with one color. -/
def imageNew (w h : Int) (fill : Pix) : Img := ⟨w, h, fun _ _ => fill⟩

/-- A solid one-color image, used to build concrete test inputs. -/
def solidImg (w h : Int) (p : Pix) : Img := ⟨w, h, fun _ _ => p⟩

/-- Modelled from the spec: the external image library call
dst.paste(src, (ox, oy), src), an alpha-composited paste at an integer
offset; transparent pixels of the child do not overwrite the canvas. -/
def Img.paste (dst src : Img) (ox oy : Int) : Img :=
  { dst with
    pix := fun x y =>
      if ox ≤ x ∧ x < ox + src.width ∧ oy ≤ y ∧ y < oy + src.height
          ∧ (src.pix (x - ox) (y - oy)).a ≠ 0
      then src.pix (x - ox) (y - oy)
      else dst.pix x y }

/-- Embedding of add_padding (src/pil_css.py lines 195-231): the if/elif
chain on the type keyword, a ValueError naming the bad value otherwise. -/
def addPadding (image : Img) (padding : Int) (type : String) : Except String Img :=
  if type = "all" then
    .ok ((imageNew (image.width + 2 * padding) (image.height + 2 * padding) clearPix).paste
      image padding padding)
  else if type = "left" then
    .ok ((imageNew (image.width + padding) image.height clearPix).paste image padding 0)
  else if type = "right" then
    .ok ((imageNew (image.width + padding) image.height clearPix).paste image 0 0)
  else if type = "top" then
    .ok ((imageNew image.width (image.height + padding) clearPix).paste image 0 padding)
  else if type = "bottom" then
    .ok ((imageNew image.width (image.height + padding) clearPix).paste image 0 0)
  else if type = "x" then
    .ok ((imageNew (image.width + padding * 2) image.height whitePix).paste image padding 0)
  else if type = "y" then
    .ok ((imageNew image.width (image.height + padding * 2) whitePix).paste image 0 padding)
  else
    .error ("Invalid type: " ++ type)

/-- The state of a FlexBox (src/pil_css.py lines 12-40).  Children are the
rendered child images (Step A of the spec resolves nested boxes to flat
images before the layout pipeline runs; the claims quantify over child
images).  Configuration literals are Strings, compared with equality
exactly where the Python code compares them. -/
structure FlexBox where
  image : Img
  width : Int
  height : Int
  items : List Img
  padding : Int
  gap : Int
  direction : String
  justify : String
  alignItems : String
  flexWrap : String
  allowResize : Bool
  rendered : Bool

/-- Embedding of FlexBox.__init__: captures the canvas size and stores the
configuration; the item list starts empty and the rendered flag false. -/
def FlexBox.init (image : Img) (padding gap : Int)
    (direction justify alignItems flexWrap : String) (allowResize : Bool) : FlexBox :=
  { image := image, width := image.width, height := image.height, items := [],
    padding := padding, gap := gap, direction := direction, justify := justify,
    alignItems := alignItems, flexWrap := flexWrap, allowResize := allowResize,
    rendered := false }

/-- Embedding of FlexBox.add_items (lines 42-46): raises after rendering,
otherwise extends the item list. -/
def addItems (b : FlexBox) (images : List Img) : Except String FlexBox :=
  if b.rendered then .error "Cannot add items after rendering"
  else .ok { b with items := b.items ++ images }

/-- Python max over a list: raises ValueError on an empty sequence. -/
def pyMaxE (l : List Int) : Except String Int :=
  match l with
  | [] => .error "max() arg is an empty sequence"
  | x :: xs => .ok (xs.foldl max x)

/-- One step of the line-breaking loop (lines 69-81).  State is
(lines, current_line, current_main). -/
def breakStep (direction flexWrap : String) (gap padding containerMain : Int)
    (st : List (List Img) × List Img × Int) (item : Img) :
    List (List Img) × List Img × Int :=
  let itemMain := if direction = "row" then item.width else item.height
  let requiredSpace := itemMain + (if st.2.1.isEmpty then 0 else gap)
  if flexWrap = "wrap" ∧ st.2.2 + requiredSpace > containerMain - 2 * padding then
    (st.1 ++ [st.2.1], [item], itemMain)
  else
    (st.1, st.2.1 ++ [item], st.2.2 + requiredSpace)

/-- Embedding of Step 1, line breaking (lines 65-84), including the flush
of a non-empty trailing line. -/
def breakLines (direction flexWrap : String) (gap padding containerMain : Int)
    (renderedItems : List Img) : List (List Img) :=
  let st := renderedItems.foldl (breakStep direction flexWrap gap padding containerMain)
    ([], [], 0)
  if st.2.1.isEmpty then st.1 else st.1 ++ [st.2.1]

/-- Embedding of the total_max computation (lines 86-90): the sum over all
lines of the line's maximal cross size plus the configured gap.  Python's
max raises on an empty line, hence the Except. -/
def totalMaxE (direction : String) (gap : Int) (lines : List (List Img)) :
    Except String Int :=
  match lines.mapM (fun line =>
      (pyMaxE (line.map (fun item =>
        if direction = "row" then item.height else item.width))).map
        (fun m => m + gap)) with
  | .error e => .error e
  | .ok ms => .ok ms.sum

/-- Embedding of the justify dispatch (lines 117-150): given the main
dimension of the canvas, the padding, the configured gap, the total main
size of the line and the number of items, returns (main_cursor, gap). -/
def justifyParams (justify : String) (mainDim padding gapCfg totalMainSize numItems : Int) :
    Int × Int :=
  if justify = "start" then (padding, gapCfg)
  else if justify = "end" then
    (mainDim - padding - totalMainSize - gapCfg * (numItems - 1), gapCfg)
  else if justify = "center" then
    (padding + Int.fdiv ((mainDim - 2 * padding - totalMainSize) - gapCfg * (numItems - 1)) 2,
     gapCfg)
  else if justify = "space-between" ∧ numItems > 1 then
    (padding, Int.fdiv (mainDim - 2 * padding - totalMainSize) (numItems - 1))
  else if justify = "space-around" then
    (padding + Int.fdiv (Int.fdiv (mainDim - 2 * padding - totalMainSize) numItems) 2,
     Int.fdiv (mainDim - 2 * padding - totalMainSize) numItems)
  else if justify = "space-evenly" then
    (padding + Int.fdiv (mainDim - 2 * padding - totalMainSize) (numItems + 1),
     Int.fdiv (mainDim - 2 * padding - totalMainSize) (numItems + 1))
  else (padding, gapCfg)

/-- Embedding of the per-item placement (lines 152-181).  State is
(image, main_cursor); crossCursor, maxCross, alignmentOffset and the
effective gap are fixed for the line. -/
def placeItem (direction alignItems : String)
    (alignmentOffset maxCross crossCursor gap : Int)
    (st : Img × Int) (item : Img) : Img × Int :=
  if direction = "row" then
    let cross :=
      if alignItems = "center" then
        crossCursor + Int.fdiv (alignmentOffset + (maxCross - item.height)) 2
      else if alignItems = "end" then
        crossCursor + (alignmentOffset + (maxCross - item.height))
      else crossCursor
    (st.1.paste item st.2 cross, st.2 + item.width + gap)
  else
    let cross :=
      if alignItems = "center" then
        crossCursor + Int.fdiv (alignmentOffset + (maxCross - item.width)) 2
      else if alignItems = "end" then
        crossCursor + (alignmentOffset + (maxCross - item.width))
      else crossCursor
    (st.1.paste item cross st.2, st.2 + item.height + gap)

/-- Embedding of the body of the per-line loop (lines 107-182).  State is
(image, cross_cursor); width and height are the (possibly resized) canvas
dimensions. -/
def renderLine (direction justify alignItems : String)
    (width height padding gapCfg alignmentOffset : Int)
    (st : Img × Int) (line : List Img) : Except String (Img × Int) :=
  match pyMaxE (line.map (fun item =>
      if direction = "row" then item.height else item.width)) with
  | .error e => .error e
  | .ok maxCross =>
    let totalMainSize := (line.map (fun item =>
      if direction = "row" then item.width else item.height)).sum
    let mainDim := if direction = "row" then width else height
    let mc := justifyParams justify mainDim padding gapCfg totalMainSize (line.length : Int)
    let fin := line.foldl
      (placeItem direction alignItems alignmentOffset maxCross st.2 mc.2) (st.1, mc.1)
    .ok (fin.1, st.2 + maxCross + gapCfg)

/-- The line breaking of render, with container_main read from the box as
on line 66 (the width for row, the height for column). -/
def layoutLines (b : FlexBox) : List (List Img) :=
  breakLines b.direction b.flexWrap b.gap b.padding
    (if b.direction = "row" then b.width else b.height) b.items

/-- The canvas growth branch (lines 91-99): triggered by total_max
exceeding self.height, padding the bottom for row and the right for
column, and updating the recorded width and height from the new canvas. -/
def resizeBox (b : FlexBox) (totalMax : Int) : Except String FlexBox :=
  if totalMax > b.height then
    (addPadding b.image
      (totalMax - (if b.direction = "row" then b.height else b.width) + b.padding * 2)
      (if b.direction = "row" then "bottom" else "right")).map
      (fun img => { b with image := img, width := img.width, height := img.height })
  else .ok b

/-- The alignment offset (lines 101-103): the cross-axis dimension of the
(possibly resized) canvas minus total_max. -/
def alignOffset (b : FlexBox) (totalMax : Int) : Int :=
  (if b.direction = "row" then b.height else b.width) - totalMax

/-- Embedding of FlexBox.render (lines 48-185): early returns for the
rendered flag and for an empty item list; line breaking; the cross-extent
computation; the canvas growth branch; then the per-line placement loop,
returning the updated box and the canvas. -/
def render (b : FlexBox) : Except String (FlexBox × Img) :=
  if b.rendered then .ok (b, b.image)
  else if b.items.isEmpty then .ok (b, b.image)
  else
    match totalMaxE b.direction b.gap (layoutLines b) with
    | .error e => .error e
    | .ok totalMax =>
      match resizeBox b totalMax with
      | .error e => .error e
      | .ok b2 =>
        match (layoutLines b).foldlM
            (renderLine b2.direction b2.justify b2.alignItems
              b2.width b2.height b2.padding b2.gap (alignOffset b2 totalMax))
            (b2.image, b2.padding) with
        | .error e => .error e
        | .ok fin => .ok ({ b2 with image := fin.1, rendered := true }, fin.1)

/-- The image render returns, forgetting the updated box state. -/
def renderImage (b : FlexBox) : Except String Img := (render b).map (fun p => p.2)

/-- Whether an Except carries a success value. -/
def isOkE {α : Type} (e : Except String α) : Bool :=
  match e with
  | .ok _ => true
  | .error _ => false

/-- Python truthiness of an Optional[int]: None and 0 are falsy. -/
def truthy (v : Option Int) : Bool :=
  match v with
  | none => false
  | some n => n ≠ 0

/-- Embedding of position_relative (lines 333-360), including the Python
truthiness tests of the two conflict checks. -/
def position_relative (base image : Img) (top bottom left right : Option Int) :
    Except String Img :=
  if truthy top && truthy bottom then .error "Cannot set both top and bottom"
  else if truthy left && truthy right then .error "Cannot set both left and right"
  else
    let top1 : Option Int := if top = none ∧ bottom = none then some 0 else top
    let left1 : Option Int := if left = none ∧ right = none then some 0 else left
    let top2 : Option Int :=
      match bottom with
      | some bo => some (base.height - bo - image.height)
      | none => top1
    let left2 : Option Int :=
      match right with
      | some ri => some (base.width - ri - image.width)
      | none => left1
    match top2, left2 with
    | some t, some l => .ok (base.paste image l t)
    | _, _ => .error "assert failure"

/-- Copy the configuration literals and the resize flag of s onto the data
fields of t; used to state that render reads configuration only through
its branch tests. -/
def withCfg (s t : FlexBox) : FlexBox :=
  { t with direction := s.direction, justify := s.justify, alignItems := s.alignItems,
           flexWrap := s.flexWrap, allowResize := s.allowResize }

/-- The padding contract of the spec for one add_padding variant: the
result has the stated dimensions, every source pixel with nonzero alpha
reappears at the stated offset (a fully transparent source pixel exposes
the fill, which is what alpha-compositing onto the fill produces), and
everything outside the offset copy of the source is exactly the fill. -/
def padsOk (img r : Img) (w h ox oy : Int) (fill : Pix) : Prop :=
  r.width = w ∧ r.height = h ∧
  (∀ x y, 0 ≤ x → x < img.width → 0 ≤ y → y < img.height →
    r.pix (ox + x) (oy + y) = (if (img.pix x y).a ≠ 0 then img.pix x y else fill)) ∧
  (∀ x y, (x < ox ∨ ox + img.width ≤ x ∨ y < oy ∨ oy + img.height ≤ y) →
    r.pix x y = fill)

/-- A 20x5 child: its main size 20 exceeds the container main 10. -/
def c1Item : Img := solidImg 20 5 ⟨1, 0, 0, 255⟩

/-- Row wrap box, canvas 10x10, padding 0, gap 0, whose first child already
overflows the main axis. -/
def c1Box : FlexBox :=
  { FlexBox.init (solidImg 10 10 ⟨9, 9, 9, 255⟩) 0 0 "row" "start" "start" "wrap" true with
      items := [c1Item] }

/-- A 10x3 child for the column-direction growth test. -/
def c2Item : Img := solidImg 10 3 ⟨1, 0, 0, 255⟩

/-- Column box, canvas 100 wide and 5 high: the total cross extent 10 is far
below the cross-axis dimension (the width, 100) but above the height. -/
def c2Box : FlexBox :=
  { FlexBox.init (solidImg 100 5 ⟨9, 9, 9, 255⟩) 0 0 "column" "start" "start" "wrap" true with
      items := [c2Item] }

/-- First item of the space-between instance: 10 wide. -/
def c3ItemA : Img := solidImg 10 1 ⟨1, 0, 0, 255⟩

/-- Second item of the space-between instance: 20 wide. -/
def c3ItemB : Img := solidImg 20 1 ⟨2, 0, 0, 255⟩

/-- Row box of width 100, padding 0, justify space-between, two items of
main sizes 10 and 20; the configured gap 5 must be ignored. -/
def c3Box : FlexBox :=
  { FlexBox.init (solidImg 100 10 ⟨9, 9, 9, 255⟩) 0 5 "row" "space-between" "start" "wrap" true
      with items := [c3ItemA, c3ItemB] }

/-- Box with unrecognized direction, justify, align_items and flex_wrap
literals, and one child. -/
def bogusBox : FlexBox :=
  { FlexBox.init (solidImg 5 5 ⟨9, 9, 9, 255⟩) 0 0 "diagonal" "sideways" "middle" "wavy" true
      with items := [solidImg 2 2 ⟨1, 0, 0, 255⟩] }

/-- Base image for position_relative. -/
def c7Base : Img := solidImg 4 4 ⟨9, 9, 9, 255⟩

/-- Image to place with position_relative. -/
def c7Img : Img := solidImg 1 1 ⟨1, 0, 0, 255⟩

/-- A solid opaque 1x1 child image. -/
def unitImg : Img := solidImg 1 1 ⟨1, 0, 0, 255⟩

/-- A box that is rendered with zero children. -/
def emptyBox : FlexBox :=
  FlexBox.init (solidImg 2 2 ⟨9, 9, 9, 255⟩) 0 0 "row" "start" "start" "wrap" true

/-- A small one-child box used to exercise the main render path. -/
def w4Box : FlexBox :=
  { FlexBox.init (solidImg 4 4 ⟨9, 9, 9, 255⟩) 0 0 "row" "start" "start" "wrap" true with
      items := [unitImg] }

/-- The state and image produced by rendering w4Box. -/
def w4Pair : FlexBox × Img := ((render w4Box).toOption).getD (w4Box, w4Box.image)

/-- A one-child box with centered justification. -/
def w5Box : FlexBox :=
  { FlexBox.init (solidImg 4 4 ⟨9, 9, 9, 255⟩) 0 0 "row" "center" "start" "wrap" true with
      items := [unitImg] }

/-- The state and image produced by rendering w5Box. -/
def w5Pair : FlexBox × Img := ((render w5Box).toOption).getD (w5Box, w5Box.image)

/-- A one-child column box. -/
def w8Box : FlexBox :=
  { FlexBox.init (solidImg 3 3 ⟨9, 9, 9, 255⟩) 0 0 "column" "start" "start" "wrap" true with
      items := [unitImg] }

/-- The state and image produced by rendering w8Box. -/
def w8Pair : FlexBox × Img := ((render w8Box).toOption).getD (w8Box, w8Box.image)

/-- A box with an unrecognized direction literal. -/
def bogusBox2 : FlexBox :=
  { FlexBox.init (solidImg 6 6 ⟨9, 9, 9, 255⟩) 1 1 "diag2" "start" "start" "wrap" true with
      items := [unitImg] }

/-- A 1x1 opaque image used in the padding witnesses. -/
def padImg1 : Img := solidImg 1 1 ⟨1, 2, 3, 255⟩

/-- The image produced by padding padImg1 by 1 on all sides. -/
def padAllRes : Img :=
  match addPadding padImg1 1 "all" with
  | .ok r => r
  | .error _ => padImg1

theorem exceptMap_eq_ok {α β : Type} (e : Except String α) (f : α → β) (y : β)
    (h : e.map f = .ok y) : ∃ x, e = .ok x ∧ y = f x := by
  cases e with
  | error err => simp [Except.map] at h
  | ok x => exact ⟨x, rfl, by simpa [Except.map] using h.symm⟩

theorem exceptMap_snd (e : Except String (FlexBox × Img)) (f : FlexBox → FlexBox) :
    (e.map (fun p => (f p.1, p.2))).map (fun p => p.2) = e.map (fun p => p.2) := by
  cases e <;> rfl

theorem resizeBox_ok_fields (b b2 : FlexBox) (tm : Int) (h : resizeBox b tm = .ok b2) :
    b2.items = b.items ∧ b2.padding = b.padding ∧ b2.gap = b.gap ∧
    b2.direction = b.direction ∧ b2.justify = b.justify ∧ b2.alignItems = b.alignItems ∧
    b2.flexWrap = b.flexWrap ∧ b2.allowResize = b.allowResize ∧ b2.rendered = b.rendered := by
  unfold resizeBox at h
  split at h
  · obtain ⟨img, -, hb2⟩ := exceptMap_eq_ok _ _ _ h
    subst hb2
    exact ⟨rfl, rfl, rfl, rfl, rfl, rfl, rfl, rfl, rfl⟩
  · simp only [Except.ok.injEq] at h
    subst h
    exact ⟨rfl, rfl, rfl, rfl, rfl, rfl, rfl, rfl, rfl⟩

theorem render_ok_fields (b b' : FlexBox) (i : Img) (h : render b = .ok (b', i)) :
    b'.image = i ∧ b'.items = b.items ∧ b'.padding = b.padding ∧ b'.gap = b.gap ∧
    b'.direction = b.direction ∧ b'.justify = b.justify ∧ b'.alignItems = b.alignItems ∧
    b'.flexWrap = b.flexWrap ∧ b'.allowResize = b.allowResize ∧
    (b'.rendered = true ∨ (b.items.isEmpty = true ∧ b' = b)) := by
  unfold render at h
  split at h
  · simp only [Except.ok.injEq, Prod.mk.injEq] at h
    obtain ⟨rfl, rfl⟩ := h
    rename_i hr
    exact ⟨rfl, rfl, rfl, rfl, rfl, rfl, rfl, rfl, rfl, Or.inl hr⟩
  · split at h
    · simp only [Except.ok.injEq, Prod.mk.injEq] at h
      obtain ⟨rfl, rfl⟩ := h
      rename_i hie
      exact ⟨rfl, rfl, rfl, rfl, rfl, rfl, rfl, rfl, rfl, Or.inr ⟨hie, rfl⟩⟩
    · split at h
      · exact absurd h (by simp)
      · split at h
        · exact absurd h (by simp)
        · rename_i b2 heq
          split at h
          · exact absurd h (by simp)
          · simp only [Except.ok.injEq, Prod.mk.injEq] at h
            obtain ⟨rfl, rfl⟩ := h
            obtain ⟨h1, h2, h3, h4, h5, h6, h7, h8, -⟩ := resizeBox_ok_fields _ _ _ heq
            exact ⟨rfl, h1, h2, h3, h4, h5, h6, h7, h8, Or.inl rfl⟩

theorem withCfg_eq (b c : FlexBox) (him : c.image = b.image) (hw : c.width = b.width)
    (hh : c.height = b.height) (hit : c.items = b.items) (hp : c.padding = b.padding)
    (hg : c.gap = b.gap) (hr : c.rendered = b.rendered) : withCfg b c = b := by
  cases b; cases c
  simp_all [withCfg]

theorem breakStep_congr (d1 d2 fw1 fw2 : String) (hd : (d1 = "row") ↔ (d2 = "row"))
    (hfw : (fw1 = "wrap") ↔ (fw2 = "wrap")) :
    breakStep d1 fw1 = breakStep d2 fw2 := by
  funext g p cm st item
  simp only [breakStep, propext hd.symm, propext hfw.symm]

theorem breakLines_congr (d1 d2 fw1 fw2 : String) (hd : (d1 = "row") ↔ (d2 = "row"))
    (hfw : (fw1 = "wrap") ↔ (fw2 = "wrap")) :
    breakLines d1 fw1 = breakLines d2 fw2 := by
  funext g p cm items
  unfold breakLines
  rw [breakStep_congr d1 d2 fw1 fw2 hd hfw]

theorem totalMaxE_congr (d1 d2 : String) (hd : (d1 = "row") ↔ (d2 = "row")) :
    totalMaxE d1 = totalMaxE d2 := by
  funext g lines
  simp only [totalMaxE, propext hd.symm]

theorem placeItem_congr (d1 d2 a1 a2 : String) (hd : (d1 = "row") ↔ (d2 = "row"))
    (hac : (a1 = "center") ↔ (a2 = "center")) (hae : (a1 = "end") ↔ (a2 = "end")) :
    placeItem d1 a1 = placeItem d2 a2 := by
  funext ao mx cc g st item
  simp only [placeItem, propext hd.symm, propext hac.symm, propext hae.symm]

theorem renderLine_congr (d1 d2 j1 j2 a1 a2 : String) (hd : (d1 = "row") ↔ (d2 = "row"))
    (hac : (a1 = "center") ↔ (a2 = "center")) (hae : (a1 = "end") ↔ (a2 = "end"))
    (hj : justifyParams j1 = justifyParams j2) :
    renderLine d1 j1 a1 = renderLine d2 j2 a2 := by
  funext w h p g ao st line
  simp only [renderLine, propext hd.symm, hj, placeItem_congr d1 d2 a1 a2 hd hac hae]

theorem justifyParams_fallback (j : String) (hs : j ≠ "start") (he : j ≠ "end")
    (hc : j ≠ "center") (hsb : j ≠ "space-between") (hsa : j ≠ "space-around")
    (hse : j ≠ "space-evenly") : justifyParams j = justifyParams "start" := by
  funext md p g tms n
  simp [justifyParams, hs, he, hc, hsb, hsa, hse]

theorem exceptMap_map {α β γ : Type} (e : Except String α) (f : α → β) (g : β → γ) :
    (e.map f).map g = e.map (fun x => g (f x)) := by
  cases e <;> rfl

theorem layoutLines_congr (b c : FlexBox) (hw : b.width = c.width) (hh : b.height = c.height)
    (hit : b.items = c.items) (hp : b.padding = c.padding) (hg : b.gap = c.gap)
    (hd : (b.direction = "row") ↔ (c.direction = "row"))
    (hfw : (b.flexWrap = "wrap") ↔ (c.flexWrap = "wrap")) :
    layoutLines b = layoutLines c := by
  unfold layoutLines
  rw [breakLines_congr b.direction c.direction b.flexWrap c.flexWrap hd hfw, hg, hp, hit,
    if_congr hd hw hh]

theorem resizeBox_congr (b c : FlexBox)
    (him : b.image = c.image) (hw : b.width = c.width) (hh : b.height = c.height)
    (hit : b.items = c.items) (hp : b.padding = c.padding) (hg : b.gap = c.gap)
    (hr : b.rendered = c.rendered)
    (hd : (b.direction = "row") ↔ (c.direction = "row")) (tm : Int) :
    resizeBox b tm = (resizeBox c tm).map (fun s => withCfg b s) := by
  have hamt : tm - (if b.direction = "row" then b.height else b.width) + b.padding * 2
      = tm - (if c.direction = "row" then c.height else c.width) + c.padding * 2 := by
    rw [hp, if_congr hd hh hw]
  have hty : (if b.direction = "row" then "bottom" else "right")
      = (if c.direction = "row" then "bottom" else "right") := if_congr hd rfl rfl
  unfold resizeBox
  rw [hamt, hty, him, hh]
  by_cases hgt : tm > c.height
  · rw [if_pos hgt, if_pos hgt, exceptMap_map]
    have hfun : (fun img => { b with image := img, width := img.width, height := img.height })
        = (fun img => withCfg b
            { c with image := img, width := img.width, height := img.height }) := by
      funext img
      simp [withCfg, FlexBox.mk.injEq, hit, hp, hg, hr]
    rw [hfun]
  · rw [if_neg hgt, if_neg hgt]
    have hwc : withCfg b c = b :=
      withCfg_eq b c him.symm hw.symm hh.symm hit.symm hp.symm hg.symm hr.symm
    simp [Except.map, hwc]

theorem render_congr (b c : FlexBox)
    (him : b.image = c.image) (hw : b.width = c.width) (hh : b.height = c.height)
    (hit : b.items = c.items) (hp : b.padding = c.padding) (hg : b.gap = c.gap)
    (hr : b.rendered = c.rendered)
    (hd : (b.direction = "row") ↔ (c.direction = "row"))
    (hfw : (b.flexWrap = "wrap") ↔ (c.flexWrap = "wrap"))
    (hac : (b.alignItems = "center") ↔ (c.alignItems = "center"))
    (hae : (b.alignItems = "end") ↔ (c.alignItems = "end"))
    (hj : justifyParams b.justify = justifyParams c.justify) :
    render b = (render c).map (fun p => (withCfg b p.1, p.2)) := by
  have hll : layoutLines b = layoutLines c := layoutLines_congr b c hw hh hit hp hg hd hfw
  have hwc : withCfg b c = b :=
    withCfg_eq b c him.symm hw.symm hh.symm hit.symm hp.symm hg.symm hr.symm
  unfold render
  rw [hr, hit, him]
  by_cases hcr : c.rendered = true
  · rw [if_pos hcr, if_pos hcr]
    simp [Except.map, hwc]
  · rw [if_neg hcr, if_neg hcr]
    by_cases hie : c.items.isEmpty = true
    · rw [if_pos hie, if_pos hie]
      simp [Except.map, hwc]
    · rw [if_neg hie, if_neg hie]
      rw [hll, totalMaxE_congr b.direction c.direction hd, hg]
      cases htm : totalMaxE c.direction c.gap (layoutLines c) with
      | error e => simp [Except.map]
      | ok tm =>
        dsimp only
        rw [resizeBox_congr b c him hw hh hit hp hg hr hd tm]
        cases hrz : resizeBox c tm with
        | error e => simp [Except.map]
        | ok c2 =>
          obtain ⟨i1, i2, i3, i4, i5, i6, i7, i8, i9⟩ := resizeBox_ok_fields c c2 tm hrz
          have hd2 : (b.direction = "row") ↔ (c2.direction = "row") := by
            rw [i4]; exact hd
          have hac2 : (b.alignItems = "center") ↔ (c2.alignItems = "center") := by
            rw [i6]; exact hac
          have hae2 : (b.alignItems = "end") ↔ (c2.alignItems = "end") := by
            rw [i6]; exact hae
          have hj2 : justifyParams b.justify = justifyParams c2.justify := by
            rw [i5]; exact hj
          simp only [Except.map]
          dsimp only [withCfg]
          rw [renderLine_congr b.direction c2.direction b.justify c2.justify
            b.alignItems c2.alignItems hd2 hac2 hae2 hj2]
          have hao : (alignOffset
              { c2 with direction := b.direction, justify := b.justify,
                        alignItems := b.alignItems, flexWrap := b.flexWrap,
                        allowResize := b.allowResize } tm) = alignOffset c2 tm := by
            dsimp only [alignOffset]
            rw [if_congr hd2 rfl rfl]
          rw [hao]
          cases hfv : (layoutLines c).foldlM
              (renderLine c2.direction c2.justify c2.alignItems
                c2.width c2.height c2.padding c2.gap (alignOffset c2 tm))
              (c2.image, c2.padding) with
          | error e => rfl
          | ok fin => rfl

theorem paste_pix_in (dst src : Img) (ox oy x y : Int)
    (hx0 : 0 ≤ x) (hxw : x < src.width) (hy0 : 0 ≤ y) (hyh : y < src.height) :
    (dst.paste src ox oy).pix (ox + x) (oy + y)
      = (if (src.pix x y).a ≠ 0 then src.pix x y else dst.pix (ox + x) (oy + y)) := by
  unfold Img.paste
  dsimp only
  have hxx : ox + x - ox = x := by omega
  have hyy : oy + y - oy = y := by omega
  rw [hxx, hyy]
  by_cases ha : (src.pix x y).a ≠ 0
  · rw [if_pos ⟨by omega, by omega, by omega, by omega, ha⟩, if_pos ha]
  · rw [if_neg (fun hc => ha hc.2.2.2.2), if_neg ha]

theorem paste_pix_out (dst src : Img) (ox oy x y : Int)
    (h : x < ox ∨ ox + src.width ≤ x ∨ y < oy ∨ oy + src.height ≤ y) :
    (dst.paste src ox oy).pix x y = dst.pix x y := by
  unfold Img.paste
  dsimp only
  rw [if_neg]
  rintro ⟨h1, h2, h3, h4, -⟩
  rcases h with h | h | h | h <;> omega

theorem padsOk_paste (img : Img) (w h ox oy : Int) (fill : Pix) :
    padsOk img ((imageNew w h fill).paste img ox oy) w h ox oy fill := by
  refine ⟨rfl, rfl, ?_, ?_⟩
  · intro x y hx0 hxw hy0 hyh
    rw [paste_pix_in _ _ _ _ _ _ hx0 hxw hy0 hyh]
    rfl
  · intro x y hxy
    rw [paste_pix_out _ _ _ _ _ _ hxy]
    rfl

/-- C1: the claim fails on the code.  When the first child's own main size
(20) already exceeds container_main - 2*padding (10) in wrap mode, the
line breaker pushes the still-empty current line onto the line list, and
the cross-extent computation then evaluates Python max() over that empty
line, raising ValueError — so the oversized first child is never placed at
all, contradicting the claim (and the spec) that such a child must still
be placed, unbroken.  The theorem evaluates the embedded code on that
input: the line list is [[], [c1Item]] and render raises. -/
theorem wrap_overflow_first_child_crashes :
    layoutLines c1Box = [[], [c1Item]] ∧
    render c1Box = .error "max() arg is an empty sequence" := ⟨rfl, rfl⟩

/-- C2: the claim fails on the code.  For column direction the cross axis
is the width, but line 91 tests total_max against self.height regardless
of direction.  On c2Box (column, canvas 100 wide and 5 high, one 10x3
child) the total cross extent 10 is far below the cross-axis dimension
100, yet 10 > height 5 triggers the growth branch, whose deficit
10 - 100 + 0 = -90 shrinks the canvas: the rendered canvas and the
recorded box size end up 10x5 instead of the untouched 100x5. -/
theorem cross_growth_wrong_axis :
    c2Box.direction = "column" ∧ c2Box.width = 100 ∧ c2Box.height = 5 ∧
    totalMaxE c2Box.direction c2Box.gap (layoutLines c2Box) = .ok 10 ∧
    (render c2Box).map (fun p => (p.1.width, p.1.height, p.2.width, p.2.height))
      = .ok (10, 5, 10, 5) := ⟨rfl, rfl, rfl, rfl, rfl⟩

/-- C3: the justify dispatch follows the claimed table with floor division
(Int.fdiv, matching Python //) throughout: start, end, center,
space-between with more than one item, space-around, space-evenly, and
space-between with a single item behaving exactly like start.  In the
concrete instance (space-between, items 10 and 20, container 100,
padding 0) the effective gap is 70 and the items land at main
coordinates 0 and 80, verified on the rendered pixels of c3Box. -/
theorem justify_table :
    (∀ md p g tms n, justifyParams "start" md p g tms n = (p, g)) ∧
    (∀ md p g tms n, justifyParams "end" md p g tms n
      = (md - p - tms - g * (n - 1), g)) ∧
    (∀ md p g tms n, justifyParams "center" md p g tms n
      = (p + Int.fdiv ((md - 2 * p - tms) - g * (n - 1)) 2, g)) ∧
    (∀ md p g tms n, n > 1 → justifyParams "space-between" md p g tms n
      = (p, Int.fdiv (md - 2 * p - tms) (n - 1))) ∧
    (∀ md p g tms n, justifyParams "space-around" md p g tms n
      = (p + Int.fdiv (Int.fdiv (md - 2 * p - tms) n) 2,
         Int.fdiv (md - 2 * p - tms) n)) ∧
    (∀ md p g tms n, justifyParams "space-evenly" md p g tms n
      = (p + Int.fdiv (md - 2 * p - tms) (n + 1),
         Int.fdiv (md - 2 * p - tms) (n + 1))) ∧
    (∀ md p g tms, justifyParams "space-between" md p g tms 1
      = justifyParams "start" md p g tms 1) ∧
    justifyParams "space-between" 100 0 5 30 2 = (0, 70) ∧
    (renderImage c3Box).map (fun i => (i.pix 0 0, i.pix 79 0, i.pix 80 0, i.pix 99 0))
      = .ok (⟨1, 0, 0, 255⟩, ⟨9, 9, 9, 255⟩, ⟨2, 0, 0, 255⟩, ⟨2, 0, 0, 255⟩) := by
  refine ⟨fun md p g tms n => rfl, fun md p g tms n => rfl, fun md p g tms n => rfl,
    ?_, fun md p g tms n => rfl, fun md p g tms n => rfl, fun md p g tms => rfl, rfl, rfl⟩
  intro md p g tms n hn
  unfold justifyParams
  rw [if_neg (by decide), if_neg (by decide), if_neg (by decide), if_pos ⟨rfl, hn⟩]

/-- Witness for C3: the space-between branch with three items of total
main size 20 in a container of main dimension 50 with padding 2. -/
theorem justify_table_w :
    justifyParams "space-between" 50 2 3 20 3 = (2, Int.fdiv (50 - 2 * 2 - 20) (3 - 1)) :=
  justify_table.2.2.2.1 50 2 3 20 3 (by decide)

/-- C4: render is idempotent.  If render b succeeds with state b2 and
image i, then render b2 returns exactly (b2, i) again: either the
rendered flag was set (cached return of the stored canvas), or b had no
items, in which case the canvas is returned untouched both times. -/
theorem render_idempotent (b b2 : FlexBox) (i : Img) (h : render b = .ok (b2, i)) :
    render b2 = .ok (b2, i) := by
  obtain ⟨himg, -, -, -, -, -, -, -, -, hflag⟩ := render_ok_fields b b2 i h
  rcases hflag with hf | ⟨hie, hb⟩
  · unfold render
    rw [if_pos hf, himg]
  · unfold render
    by_cases hr : b2.rendered = true
    · rw [if_pos hr, himg]
    · have hie2 : b2.items.isEmpty = true := by rw [hb]; exact hie
      rw [if_neg hr, if_pos hie2, himg]

/-- Witness for C4: rendering the one-child box w4Box and rendering its
result again returns the identical state and image. -/
theorem render_idempotent_w : render w4Pair.1 = .ok (w4Pair.1, w4Pair.2) :=
  render_idempotent w4Box w4Pair.1 w4Pair.2 rfl

/-- C5 counterexample: the claim is false for a box rendered with zero
children.  render on emptyBox completes (returning the untouched canvas)
without setting the rendered flag, so a subsequent add_items call does
not raise: it succeeds and appends the item. -/
theorem add_items_after_empty_render_succeeds :
    render emptyBox = .ok (emptyBox, emptyBox.image) ∧
    addItems emptyBox [unitImg] = .ok { emptyBox with items := [unitImg] } := ⟨rfl, rfl⟩

/-- C5 amended: after a render call on a box with at least one child (the
only case in which render sets the rendered flag), add_items raises the
usage-ordering error; in the embedding the error return carries no new
state, matching the Python method that raises before touching the list. -/
theorem add_items_after_render_rejected (b b2 : FlexBox) (i : Img) (xs : List Img)
    (h : render b = .ok (b2, i)) (hne : b.items.isEmpty = false) :
    addItems b2 xs = .error "Cannot add items after rendering" := by
  obtain ⟨-, -, -, -, -, -, -, -, -, hflag⟩ := render_ok_fields b b2 i h
  rcases hflag with hf | ⟨hie, -⟩
  · unfold addItems
    rw [if_pos hf]
  · exact Bool.noConfusion (hie.symm.trans hne)

/-- Witness for C5: adding to the rendered one-child box w5Box raises. -/
theorem add_items_after_render_rejected_w :
    addItems w5Pair.1 [unitImg] = .error "Cannot add items after rendering" :=
  add_items_after_render_rejected w5Box w5Pair.1 w5Pair.2 [unitImg] rfl rfl

/-- C6 counterexample: the claim is false for align_items, direction and
flex_wrap.  bogusBox carries unrecognized direction, justify, align_items
and flex_wrap literals, yet nothing fails immediately: no code path
validates them, and render completes successfully. -/
theorem unrecognized_literals_not_rejected : isOkE (render bogusBox) = true := rfl

/-- C6 amended: only an unrecognized padding-edge keyword is a hard
failure (a ValueError naming the bad value); unrecognized align_items,
direction and flex_wrap literals are silently accepted, with render
producing the same image as the fallback literal: direction other than
row behaves as column, flex_wrap other than wrap behaves as nowrap,
align_items outside center and end behaves as start, and an unrecognized
justify falls back to start. -/
theorem unrecognized_literal_fallbacks :
    (∀ img p t, t ≠ "all" → t ≠ "left" → t ≠ "right" → t ≠ "top" → t ≠ "bottom" →
      t ≠ "x" → t ≠ "y" → addPadding img p t = .error ("Invalid type: " ++ t)) ∧
    (∀ b : FlexBox, b.direction ≠ "row" →
      renderImage b = renderImage { b with direction := "column" }) ∧
    (∀ b : FlexBox, b.flexWrap ≠ "wrap" →
      renderImage b = renderImage { b with flexWrap := "nowrap" }) ∧
    (∀ b : FlexBox, b.alignItems ≠ "center" → b.alignItems ≠ "end" →
      renderImage b = renderImage { b with alignItems := "start" }) ∧
    (∀ b : FlexBox, b.justify ≠ "start" → b.justify ≠ "end" → b.justify ≠ "center" →
      b.justify ≠ "space-between" → b.justify ≠ "space-around" →
      b.justify ≠ "space-evenly" →
      renderImage b = renderImage { b with justify := "start" }) := by
  refine ⟨?_, ?_, ?_, ?_, ?_⟩
  · intro img p t h1 h2 h3 h4 h5 h6 h7
    simp [addPadding, h1, h2, h3, h4, h5, h6, h7]
  · intro b hb
    unfold renderImage
    rw [render_congr b { b with direction := "column" } rfl rfl rfl rfl rfl rfl rfl
      (iff_of_false hb (show ¬("column" : String) = "row" by decide)) Iff.rfl Iff.rfl
      Iff.rfl rfl, exceptMap_snd]
  · intro b hb
    unfold renderImage
    rw [render_congr b { b with flexWrap := "nowrap" } rfl rfl rfl rfl rfl rfl rfl
      Iff.rfl (iff_of_false hb (show ¬("nowrap" : String) = "wrap" by decide)) Iff.rfl
      Iff.rfl rfl, exceptMap_snd]
  · intro b h1 h2
    unfold renderImage
    rw [render_congr b { b with alignItems := "start" } rfl rfl rfl rfl rfl rfl rfl
      Iff.rfl Iff.rfl (iff_of_false h1 (show ¬("start" : String) = "center" by decide))
      (iff_of_false h2 (show ¬("start" : String) = "end" by decide)) rfl,
      exceptMap_snd]
  · intro b h1 h2 h3 h4 h5 h6
    unfold renderImage
    rw [render_congr b { b with justify := "start" } rfl rfl rfl rfl rfl rfl rfl
      Iff.rfl Iff.rfl Iff.rfl Iff.rfl (justifyParams_fallback b.justify h1 h2 h3 h4 h5 h6),
      exceptMap_snd]

/-- Witness for C6: a concrete bad padding keyword errors with the value
in the message, and a concrete box with direction diag2 renders the same
image as the column fallback. -/
theorem unrecognized_literal_fallbacks_w :
    addPadding padImg1 1 "diag" = .error "Invalid type: diag" ∧
    renderImage bogusBox2 = renderImage { bogusBox2 with direction := "column" } :=
  ⟨unrecognized_literal_fallbacks.1 padImg1 1 "diag" (by decide) (by decide) (by decide)
      (by decide) (by decide) (by decide) (by decide),
   unrecognized_literal_fallbacks.2.1 bogusBox2 (by decide)⟩

/-- C7: the claim fails on the code.  The conflict check is the Python
truthiness test: if top and bottom — so top given as 0 is falsy and the
call with top 0 and bottom 1 is not rejected: it proceeds, recomputes top
from bottom (4 - 1 - 1 = 2) and pastes the image onto the base, as the
pixel at (0, 2) shows. -/
theorem position_relative_zero_not_rejected :
    isOkE (position_relative c7Base c7Img (some 0) (some 1) none none) = true ∧
    (position_relative c7Base c7Img (some 0) (some 1) none none).map
      (fun i => (i.pix 0 2, i.pix 0 0))
      = .ok (⟨1, 0, 0, 255⟩, ⟨9, 9, 9, 255⟩) := ⟨rfl, rfl⟩

/-- C8: render never mutates the child images.  In the embedding every
paste rebuilds only the canvas carried in the fold state; the box state
returned by render holds the item list, and hence every child image with
its width, height and pixels, unchanged. -/
theorem render_preserves_children (b b2 : FlexBox) (i : Img) (h : render b = .ok (b2, i)) :
    b2.items = b.items :=
  (render_ok_fields b b2 i h).2.1

/-- Witness for C8: the rendered column box w8Box keeps its child list. -/
theorem render_preserves_children_w : w8Pair.1.items = w8Box.items :=
  render_preserves_children w8Box w8Pair.1 w8Pair.2 rfl

/-- C9: add_padding returns a new image enlarged by the padding on the
stated edges (2N total for all, x and y; N for left, right, top and
bottom), with every source pixel of nonzero alpha reproduced at the
stated offset, transparent source pixels exposing the fill (which is what
alpha-compositing onto the fill shows), and all space outside the offset
copy equal to the fill: fully transparent for all, left, right, top and
bottom, and opaque white for the symmetric x and y variants.  The
embedding is purely functional, so the input image is not modified. -/
theorem addPadding_spec (img : Img) (p : Int) :
    (∀ r, addPadding img p "all" = .ok r →
      padsOk img r (img.width + 2 * p) (img.height + 2 * p) p p clearPix) ∧
    (∀ r, addPadding img p "left" = .ok r →
      padsOk img r (img.width + p) img.height p 0 clearPix) ∧
    (∀ r, addPadding img p "right" = .ok r →
      padsOk img r (img.width + p) img.height 0 0 clearPix) ∧
    (∀ r, addPadding img p "top" = .ok r →
      padsOk img r img.width (img.height + p) 0 p clearPix) ∧
    (∀ r, addPadding img p "bottom" = .ok r →
      padsOk img r img.width (img.height + p) 0 0 clearPix) ∧
    (∀ r, addPadding img p "x" = .ok r →
      padsOk img r (img.width + p * 2) img.height p 0 whitePix) ∧
    (∀ r, addPadding img p "y" = .ok r →
      padsOk img r img.width (img.height + p * 2) 0 p whitePix) := by
  refine ⟨?_, ?_, ?_, ?_, ?_, ?_, ?_⟩ <;>
  · intro r hr
    simp only [addPadding, String.reduceEq, reduceIte, Except.ok.injEq] at hr
    subst hr
    exact padsOk_paste img _ _ _ _ _

/-- Witness for C9: padding the 1x1 image padImg1 by 1 on all sides
satisfies the contract, and the concrete pixels confirm it: the source
pixel sits at (1, 1) and the corner (0, 0) is fully transparent. -/
theorem addPadding_spec_w :
    padsOk padImg1 padAllRes (padImg1.width + 2 * 1) (padImg1.height + 2 * 1) 1 1 clearPix ∧
    padAllRes.pix 1 1 = ⟨1, 2, 3, 255⟩ ∧ padAllRes.pix 0 0 = clearPix :=
  ⟨(addPadding_spec padImg1 1).1 padAllRes rfl, rfl, rfl⟩

/-- C10: the allow_resize flag is stored but never read.  Two boxes that
differ only in allow_resize render to the same outcome: the same image,
the same errors, and the same final state apart from the stored flag
itself. -/
theorem allowResize_no_effect (b : FlexBox) (v1 v2 : Bool) :
    render { b with allowResize := v1 }
      = (render { b with allowResize := v2 }).map
          (fun p => ({ p.1 with allowResize := v1 }, p.2)) := by
  rw [render_congr { b with allowResize := v1 } { b with allowResize := v2 }
    rfl rfl rfl rfl rfl rfl rfl Iff.rfl Iff.rfl Iff.rfl Iff.rfl rfl]
  cases hr : render { b with allowResize := v2 } with
  | error e => rfl
  | ok p =>
    obtain ⟨-, -, -, -, hdir, hjus, hali, hfwk, -, -⟩ :=
      render_ok_fields { b with allowResize := v2 } p.1 p.2 hr
    simp [Except.map, withCfg, hdir, hjus, hali, hfwk]

end PilCss
